import Mathlib

/-
Verification development for the SmartStickDP cloud backend
(Device Event Processing & Alerting Pipeline).

Shallow embedding of the alert-rule evaluator, the incident lifecycle
operations, the SOS/command controllers and the validators, translated
from the JavaScript sources:
  src/server/controllers/telemetryController.js  (checkForAlerts)
  src/server/models/Telemetry.js                 (Event schema + methods,
                                                  MQTT client handlers)
  src/server/controllers/commandController.js    (CommandController, SOSController)
  src/unnamed/part_006                           (Validators)

Sensor and GPS numbers are modelled as rationals and `Date` timestamps
as integer milliseconds.  JavaScript truthiness on numeric
fields (where `0` and `undefined` are falsy) and `undefined < c`
comparisons (false, NaN semantics) are made explicit below.
-/

namespace SmartStick

/-- Severity values of the `Event` mongoose schema. -/
inductive Severity
  | low
  | medium
  | high
  | critical
deriving DecidableEq

/-- Event type values of the `Event` mongoose schema (the subset relevant here). -/
inductive EventType
  | SOS
  | LOW_BATTERY
  | FALL_DETECTED
  | OBSTACLE_DETECTED
  | GPS_LOST
  | COMMAND_SENT
deriving DecidableEq

/-- Status values of the `Event` mongoose schema; the default is `active`. -/
inductive Status
  | active
  | acknowledged
  | resolved
  | ignored
deriving DecidableEq

/-- JavaScript truthiness of a possibly-absent numeric field:
both `undefined` and `0` are falsy. -/
def truthyNum : Option ℚ → Bool
  | some v => decide (v ≠ 0)
  | none => false

/-- JavaScript `x || d` for a possibly-absent number `x`:
the default is taken when `x` is `undefined` or `0`. -/
def orDefault (x : Option ℚ) (d : ℚ) : ℚ :=
  match x with
  | some v => if v = 0 then d else v
  | none => d

/-- JavaScript `x < b` where `x` may be `undefined`
(`undefined < b` coerces to `NaN < b`, which is false). -/
def ltNum (x : Option ℚ) (b : ℚ) : Bool :=
  match x with
  | some v => decide (v < b)
  | none => false

/-- Accelerometer sample (`sensors.IMU.accelerometer`). -/
structure Accel where
  x : ℚ
  y : ℚ
  z : ℚ
deriving DecidableEq

/-- The sensor fields of a telemetry record that the alert rules read. -/
structure Sensors where
  batteryLevel : Option ℚ
  ultrasonicLeft : Option ℚ
  ultrasonicRight : Option ℚ
  accelerometer : Option Accel
deriving DecidableEq

/-- A GPS object from a request body; `lat` / `lon` may be absent. -/
structure Gps where
  lat : Option ℚ
  lon : Option ℚ
deriving DecidableEq

/-- A stored telemetry record (the fields the alert rules read). -/
structure TelemetryRecord where
  deviceId : String
  timestamp : ℤ
  sensors : Sensors
  gps : Gps
deriving DecidableEq

/-- An alert candidate pushed onto the `alerts` array by an alert checker
(`type`, `severity`, and the `metadata.alertValue` it records). -/
structure Alert where
  type : EventType
  severity : Severity
  alertValue : Option ℚ
deriving DecidableEq

/-- Alert candidates computed by `TelemetryController.checkForAlerts`
(src/server/controllers/telemetryController.js, lines 367-473).
`prevHadFix` stands for the result of the `Telemetry.findOne` query for an
earlier record of the device that had a GPS fix.  The JavaScript guard
`telemetry.sensors?.battery?.level && level < 20` is a truthiness test,
so battery level 0 does not enter the low-battery branch; `x || 1000`
replaces an absent or zero ultrasonic reading by 1000.  The fall test
`Math.sqrt(x*x+y*y+z*z) > 20` is rendered as `x^2+y^2+z^2 > 400`
(square root is monotone on nonnegatives). -/
def checkForAlerts (t : TelemetryRecord) (prevHadFix : Bool) : List Alert :=
  let battery : List Alert :=
    if truthyNum t.sensors.batteryLevel && ltNum t.sensors.batteryLevel 20 then
      [{ type := .LOW_BATTERY
         severity := if ltNum t.sensors.batteryLevel 10 then .high else .medium
         alertValue := t.sensors.batteryLevel }]
    else []
  let minDistance : ℚ :=
    min (orDefault t.sensors.ultrasonicLeft 1000) (orDefault t.sensors.ultrasonicRight 1000)
  let obstacle : List Alert :=
    if minDistance < 30 then
      [{ type := .OBSTACLE_DETECTED
         severity := if minDistance < 15 then .high else .medium
         alertValue := some minDistance }]
    else []
  let fall : List Alert :=
    match t.sensors.accelerometer with
    | some a =>
        if a.x ^ 2 + a.y ^ 2 + a.z ^ 2 > 400 then
          [{ type := .FALL_DETECTED, severity := .high
             alertValue := some (a.x ^ 2 + a.y ^ 2 + a.z ^ 2) }]
        else []
    | none => []
  let gpsLost : List Alert :=
    if (!truthyNum t.gps.lat || !truthyNum t.gps.lon) && prevHadFix then
      [{ type := .GPS_LOST, severity := .medium, alertValue := none }]
    else []
  battery ++ obstacle ++ fall ++ gpsLost

/-- Alert candidates computed by `MQTTClient.checkCriticalSensorReadings`
(src/server/models/Telemetry.js, lines 2767-2824, the MQTT ingestion path).
The obstacle branch fires when `ultrasonicLeft < 30 || ultrasonicRight < 30`
(an absent reading compares as false) and always uses severity `medium`;
its `alertValue` is `Math.min(left || 1000, right || 1000)`. -/
def checkCriticalSensorReadings (t : TelemetryRecord) : List Alert :=
  let obstacle : List Alert :=
    if ltNum t.sensors.ultrasonicLeft 30 || ltNum t.sensors.ultrasonicRight 30 then
      [{ type := .OBSTACLE_DETECTED
         severity := .medium
         alertValue := some (min (orDefault t.sensors.ultrasonicLeft 1000)
                                 (orDefault t.sensors.ultrasonicRight 1000)) }]
    else []
  let fall : List Alert :=
    match t.sensors.accelerometer with
    | some a =>
        if a.x ^ 2 + a.y ^ 2 + a.z ^ 2 > 400 then
          [{ type := .FALL_DETECTED, severity := .high
             alertValue := some (a.x ^ 2 + a.y ^ 2 + a.z ^ 2) }]
        else []
    | none => []
  obstacle ++ fall

/-- A row of the `Event` collection as written by the alert handlers
(the fields the cooldown queries and the counting read). -/
structure EventRec where
  type : EventType
  deviceId : String
  timestamp : ℤ
  severity : Severity
deriving DecidableEq

/-- One hour in milliseconds (`60 * 60 * 1000`), the low-battery cooldown window. -/
def hourMs : ℤ := 60 * 60 * 1000

/-- The `Event.findOne` cooldown query of `handleLowBatteryAlert`:
is there a `LOW_BATTERY` event of this device with
`timestamp >= Date.now() - 60*60*1000`? -/
def hasRecentLowBattery (d : String) (now : ℤ) (log : List EventRec) : Bool :=
  log.any fun e =>
    decide (e.type = .LOW_BATTERY) && decide (e.deviceId = d) &&
      decide (now - hourMs ≤ e.timestamp)

/-- `MQTTClient.handleLowBatteryAlert` (src/server/models/Telemetry.js,
lines 2712-2760): if a `LOW_BATTERY` event for the device exists within the
last hour the call returns without writing; otherwise it creates a
`LOW_BATTERY` event (severity `high` if the level is below 10, else
`medium`) timestamped at the current time. -/
def handleLowBatteryAlert (d : String) (batteryLevel : ℚ) (now : ℤ)
    (log : List EventRec) : List EventRec :=
  if hasRecentLowBattery d now log then log
  else
    log ++ [{ type := .LOW_BATTERY, deviceId := d, timestamp := now
              severity := if batteryLevel < 10 then .high else .medium }]

/-- `MQTTClient.handleObstacleAlert` (src/server/models/Telemetry.js,
lines 2594-2632): a 5-second cooldown query, then an `OBSTACLE_DETECTED`
event whose severity is `high` if the distance is below 20, else `medium`. -/
def handleObstacleAlert (d : String) (distance : ℚ) (now : ℤ)
    (log : List EventRec) : List EventRec :=
  if log.any (fun e =>
      decide (e.type = .OBSTACLE_DETECTED) && decide (e.deviceId = d) &&
        decide (now - 5 * 1000 ≤ e.timestamp)) then
    log
  else
    log ++ [{ type := .OBSTACLE_DETECTED, deviceId := d, timestamp := now
              severity := if distance < 20 then .high else .medium }]

/-- An inbound MQTT telemetry message together with the `Date.now()`
instant at which the server processes it. -/
structure MqttTelemetryMsg where
  deviceId : String
  batteryLevel : Option ℚ
  now : ℤ
deriving DecidableEq

/-- The low-battery branch of `MQTTClient.handleTelemetryMessage`
(src/server/models/Telemetry.js, lines 2348-2354): the guard is
`telemetryData.sensors?.battery?.level < 20` (false when the level is
absent), and on success `handleLowBatteryAlert` runs. -/
def mqttBatteryCheck (m : MqttTelemetryMsg) (log : List EventRec) : List EventRec :=
  if ltNum m.batteryLevel 20 then
    handleLowBatteryAlert m.deviceId (m.batteryLevel.getD 0) m.now log
  else log

/-- Sequential processing of a stream of MQTT telemetry messages
(only the low-battery pipeline, which is what claim C1 is about). -/
def processMqttTelemetry : List MqttTelemetryMsg → List EventRec → List EventRec
  | [], log => log
  | m :: ms, log => processMqttTelemetry ms (mqttBatteryCheck m log)

/-- The HTTP ingestion step (`TelemetryController.receiveTelemetry` calling
`checkForAlerts` then `Event.create` for each candidate with the telemetry
record's timestamp).  There is no cooldown query on this path. -/
def httpTelemetryStep (t : TelemetryRecord) (prevHadFix : Bool)
    (log : List EventRec) : List EventRec :=
  log ++ (checkForAlerts t prevHadFix).map fun a =>
    { type := a.type, deviceId := t.deviceId, timestamp := t.timestamp
      severity := a.severity }

/-- The `LOW_BATTERY` events of device `d` in an event log. -/
def lbEvents (d : String) (log : List EventRec) : List EventRec :=
  log.filter fun e => decide (e.type = .LOW_BATTERY) && decide (e.deviceId = d)

/-- How many `LOW_BATTERY` events exist for device `d`. -/
def countLowBattery (d : String) (log : List EventRec) : ℕ :=
  (lbEvents d log).length

/-- One entry of the `resolution.resolutionActions` array. -/
structure ResolutionAction where
  action : String
  timestamp : ℤ
  performedBy : String
deriving DecidableEq

/-- The `resolution` subdocument of an event. -/
structure Resolution where
  resolvedAt : ℤ
  resolvedBy : String
  resolutionNote : String
  resolutionActions : List ResolutionAction
deriving DecidableEq

/-- The `escalation` subdocument of an event. -/
structure Escalation where
  escalated : Bool
  escalatedAt : ℤ
  escalatedTo : String
  escalationReason : String
  escalationLevel : ℤ
deriving DecidableEq

/-- One entry of the `acknowledgments` array. -/
structure Ack where
  acknowledgedBy : String
  acknowledgedAt : ℤ
  note : String
deriving DecidableEq

/-- An `Event` document (the fields the lifecycle operations touch).
`location` stores the GeoJSON coordinate pair in the schema's
`[longitude, latitude]` order.  `fcmSent` is the
`notifications.fcmSent` flag. -/
structure EventDoc where
  type : EventType
  deviceId : String
  timestamp : ℤ
  severity : Severity
  status : Status
  location : Option (ℚ × ℚ)
  acknowledgments : List Ack
  resolution : Option Resolution
  escalation : Option Escalation
  fcmSent : Bool
deriving DecidableEq

/-- The `isAcknowledged` virtual of the `Event` schema:
`acknowledgments && acknowledgments.length > 0`. -/
def isAcknowledged (e : EventDoc) : Bool :=
  decide (e.acknowledgments.length > 0)

/-- `eventSchema.methods.acknowledge` (src/server/models/Telemetry.js,
lines 861-874): only when the event is not yet acknowledged, an entry is
pushed and an `active` status becomes `acknowledged`; otherwise the call
changes nothing. -/
def Event.acknowledge (e : EventDoc) (userId : String) (note : String)
    (now : ℤ) : EventDoc :=
  if !isAcknowledged e then
    { e with
      acknowledgments := e.acknowledgments ++ [{ acknowledgedBy := userId
                                                 acknowledgedAt := now
                                                 note := note }]
      status := if e.status = .active then .acknowledged else e.status }
  else e

/-- `eventSchema.methods.resolve` (src/server/models/Telemetry.js,
lines 877-894): unconditionally sets `status = "resolved"` and replaces the
whole `resolution` subdocument; there is no check of the current status. -/
def Event.resolve (e : EventDoc) (userId : String) (resolutionNote : String)
    (actions : List String) (now : ℤ) : EventDoc :=
  { e with
    status := .resolved
    resolution := some { resolvedAt := now
                         resolvedBy := userId
                         resolutionNote := resolutionNote
                         resolutionActions := actions.map fun a =>
                           { action := a, timestamp := now, performedBy := userId } } }

/-- `eventSchema.methods.escalate` (src/server/models/Telemetry.js,
lines 897-906): replaces the whole `escalation` subdocument regardless of
status; the level is written as `Math.min(level, 5)` (no lower clamp). -/
def Event.escalate (e : EventDoc) (escalatedTo : String) (reason : String)
    (level : ℤ) (now : ℤ) : EventDoc :=
  { e with
    escalation := some { escalated := true
                         escalatedAt := now
                         escalatedTo := escalatedTo
                         escalationReason := reason
                         escalationLevel := min level 5 } }

/-- The mongoose schema validation that `save()` runs on the escalation
subdocument: `escalationLevel` has `min: 1, max: 5`. -/
def escalationLevelValid (e : EventDoc) : Bool :=
  match e.escalation with
  | some esc => decide (1 ≤ esc.escalationLevel) && decide (esc.escalationLevel ≤ 5)
  | none => true

/-- The outcome of a mongoose `save()`: the written document, or a
`ValidationError` (in which case nothing is written). -/
inductive SaveOutcome
  | ok (e : EventDoc)
  | validationError
deriving DecidableEq

/-- `escalate` followed by `save()`: the updated document when the schema
validation passes, a mongoose `ValidationError` otherwise. -/
def escalateAndSave (e : EventDoc) (escalatedTo : String) (reason : String)
    (level : ℤ) (now : ℤ) : SaveOutcome :=
  let updated := Event.escalate e escalatedTo reason level now
  if escalationLevelValid updated then .ok updated else .validationError

/-- JavaScript whitespace trimming on a character list (both ends). -/
def trimChars (cs : List Char) : List Char :=
  ((cs.dropWhile Char.isWhitespace).reverse.dropWhile Char.isWhitespace).reverse

/-- `Validators.sanitizeText` (src/unnamed/part_006, lines 244-247):
`value.trim().replace(/[<>]/g, "")` on strings. -/
def sanitizeText (s : String) : String :=
  ⟨(trimChars s.data).filter fun c => !(c = '<' || c = '>')⟩

/-- `Validators.isValidDeviceId` (src/unnamed/part_006, lines 263-265):
`/^[a-zA-Z0-9_-]+$/.test(deviceId) && deviceId.length <= 50`. -/
def isValidDeviceId (deviceId : String) : Bool :=
  !deviceId.data.isEmpty &&
    deviceId.data.all (fun c => c.isAlphanum || c = '_' || c = '-') &&
    decide (deviceId.data.length ≤ 50)

/-- `eventSchema.statics.createSOSEvent` (src/server/models/Telemetry.js,
lines 916-941): builds an SOS event (severity `critical`, schema-default
status `active`); the `location` field is set only when
`location && location.lat && location.lon`, a truthiness test, so an
absent or zero coordinate drops the geolocation.  Coordinates are stored
as `[location.lon, location.lat]`. -/
def Event.createSOSEvent (deviceId : String) (location : Option Gps)
    (now : ℤ) : EventDoc :=
  { type := .SOS
    deviceId := deviceId
    timestamp := now
    severity := .critical
    status := .active
    location :=
      match location with
      | some g =>
          if truthyNum g.lat && truthyNum g.lon then
            some (g.lon.getD 0, g.lat.getD 0)
          else none
      | none => none
    acknowledgments := []
    resolution := none
    escalation := none
    fcmSent := false }

/-- A user row as seen by `User.findUsersWithFCMByDevice`: whether the
`devices` array contains the queried device, the `isActive` flag, and the
`fcmToken` (absent models both a missing field and `null`). -/
structure UserRec where
  hasDevice : Bool
  isActive : Bool
  fcmToken : Option String
deriving DecidableEq

/-- `userSchema.statics.findUsersWithFCMByDevice` (src/server/models/Telemetry.js,
lines 561-567): users whose `devices` array contains the device, whose
`fcmToken` exists and is not null, and who are active. -/
def findUsersWithFCMByDevice (users : List UserRec) : List UserRec :=
  users.filter fun u => u.hasDevice && u.fcmToken.isSome && u.isActive

/-- The response of `SOSController.receiveSOS` as far as the claims read it:
HTTP status code, the `success` flag, the `notificationsSent` field of the
response body when present, and the stored SOS event. -/
structure SOSResponse where
  statusCode : ℕ
  success : Bool
  notificationsSent : Option ℕ
  event : EventDoc
deriving DecidableEq

/-- `SOSController.receiveSOS` (src/server/controllers/commandController.js
concatenation, lines 684-795): creates the SOS event, queries the users
with FCM tokens for the device; when that query is empty it returns 200
with a body that has no `notificationsSent` field; otherwise it collects
the truthy tokens (`.filter((token) => token)` drops empty strings),
attempts the FCM send when any remain (`fcmOk` models the send outcome,
recorded on the event, never failing the request), and returns 201 with
`notificationsSent` equal to the number of tokens. -/
def SOSController.receiveSOS (deviceId : String) (gps : Option Gps)
    (users : List UserRec) (fcmOk : Bool) (now : ℤ) : SOSResponse :=
  let sosEvent := Event.createSOSEvent (sanitizeText deviceId) gps now
  let matched := findUsersWithFCMByDevice users
  if matched.length = 0 then
    { statusCode := 200, success := true, notificationsSent := none
      event := sosEvent }
  else
    let fcmTokens := (matched.map fun u => u.fcmToken).filterMap fun tok =>
      match tok with
      | some s => if s = "" then none else some s
      | none => none
    let sosEvent' :=
      if fcmTokens.length > 0 then { sosEvent with fcmSent := fcmOk } else sosEvent
    { statusCode := 201, success := true
      notificationsSent := some fcmTokens.length
      event := sosEvent' }

/-- A controller reply: HTTP status code plus the (possibly updated) event. -/
structure ControllerResponse where
  statusCode : ℕ
  event : EventDoc
deriving DecidableEq

/-- `SOSController.resolveSOS` (src/server/controllers/commandController.js
concatenation, lines 1041-1115): rejects non-SOS events with 400 and
missing device access with 403, then calls `Event.resolve` with the
sanitized note and actions and replies 200.  It never inspects the current
status, so there is no conflict path. -/
def SOSController.resolveSOS (e : EventDoc) (hasAccess : Bool)
    (userId : String) (resolutionNote : String) (actions : List String)
    (now : ℤ) : ControllerResponse :=
  if !(decide (e.type = .SOS)) then { statusCode := 400, event := e }
  else if !hasAccess then { statusCode := 403, event := e }
  else
    { statusCode := 200
      event := Event.resolve e userId (sanitizeText resolutionNote)
                 (actions.map sanitizeText) now }

/-- A JSON value of a command-parameters map. -/
inductive JsonValue
  | str (s : String)
  | num (q : ℚ)
  | boolean (b : Bool)
  | null
deriving DecidableEq

/-- The per-entry sanitization of `CommandController.sendCommand`:
strings go through `Validators.sanitizeText`, all other values pass
through unchanged. -/
def sanitizeValue : JsonValue → JsonValue
  | .str s => .str (sanitizeText s)
  | v => v

/-- The `sanitizedParameters` object built by `CommandController.sendCommand`
(src/server/controllers/commandController.js, lines 69-77). -/
def sanitizeParameters (ps : List (String × JsonValue)) :
    List (String × JsonValue) :=
  ps.map fun kv => (kv.1, sanitizeValue kv.2)

/-- The recorded `COMMAND_SENT` dispatch entry of
`CommandController.sendCommand` (lines 79-120): the event's
`metadata.commandParameters` and the HTTP response's `data.parameters`
are both the sanitized map. -/
structure CommandDispatch where
  deviceId : String
  command : String
  parameters : List (String × JsonValue)
  messageId : String
deriving DecidableEq

/-- Dispatching one command: what gets recorded and echoed for parameters
map `ps` (the message id comes from `generateMessageId`). -/
def sendCommandDispatch (deviceId : String) (command : String)
    (ps : List (String × JsonValue)) (messageId : String) : CommandDispatch :=
  { deviceId := deviceId
    command := command
    parameters := sanitizeParameters ps
    messageId := messageId }

/-- One row of the bulk-command `results` array. -/
structure BulkEntryRec where
  deviceId : String
  success : Bool
deriving DecidableEq

/-- The response of `CommandController.sendBulkCommands`. -/
structure BulkResponse where
  statusCode : ℕ
  success : Bool
  results : List BulkEntryRec
  successCount : ℕ
  totalDevices : ℕ
deriving DecidableEq

/-- The valid command enum of the command controller. -/
def validCommands : List String :=
  ["vibrate", "beep", "led_on", "led_off", "status_check", "reboot"]

/-- `CommandController.sendBulkCommands` (src/server/controllers/commandController.js,
lines 435-558): admin check (403), non-empty device list (400), command
enum (400), MQTT connectivity (503); then each device is handled inside
the loop: an invalid device id is recorded as a per-device failure and the
loop continues, otherwise the MQTT publish outcome (`publishOk`, the
`result.success` of `mqttClient.sendCommand`, which catches its own
errors) is recorded.  `successCount` counts successful rows; the overall
`success` flag and the 200/500 status require at least one success. -/
def sendBulkCommands (isAdmin : Bool) (deviceIds : List String)
    (command : String) (mqttConnected : Bool)
    (publishOk : String → Bool) : BulkResponse :=
  if !isAdmin then
    { statusCode := 403, success := false, results := [], successCount := 0
      totalDevices := 0 }
  else if deviceIds.isEmpty then
    { statusCode := 400, success := false, results := [], successCount := 0
      totalDevices := 0 }
  else if !(validCommands.contains command) then
    { statusCode := 400, success := false, results := [], successCount := 0
      totalDevices := 0 }
  else if !mqttConnected then
    { statusCode := 503, success := false, results := [], successCount := 0
      totalDevices := 0 }
  else
    let results := deviceIds.map fun d =>
      if !isValidDeviceId d then { deviceId := d, success := false }
      else { deviceId := d, success := publishOk d }
    let successCount := (results.filter fun r => r.success).length
    { statusCode := if successCount > 0 then 200 else 500
      success := decide (successCount > 0)
      results := results
      successCount := successCount
      totalDevices := deviceIds.length }

/-- A concrete active SOS incident used by the concrete counterexamples. -/
def sos0 : EventDoc := Event.createSOSEvent "stick-001" none 0

/-- A concrete telemetry record whose battery level is exactly 0. -/
def tBatteryZero : TelemetryRecord :=
  { deviceId := "stick-001", timestamp := 0
    sensors := { batteryLevel := some 0, ultrasonicLeft := none
                 ultrasonicRight := none, accelerometer := none }
    gps := { lat := some 1, lon := some 1 } }

/-- The same record with another battery level. -/
def withBattery (l : Option ℚ) : TelemetryRecord :=
  { tBatteryZero with
    sensors := { tBatteryZero.sensors with batteryLevel := l } }

/-- A concrete record with ultrasonic readings 10 and 500. -/
def tObstacle10 : TelemetryRecord :=
  { deviceId := "stick-001", timestamp := 0
    sensors := { batteryLevel := none, ultrasonicLeft := some 10
                 ultrasonicRight := some 500, accelerometer := none }
    gps := { lat := some 1, lon := some 1 } }

/-- A concrete record with ultrasonic readings 0 and 500 (an obstacle in
contact on the left). -/
def tObstacleZero : TelemetryRecord :=
  { deviceId := "stick-001", timestamp := 0
    sensors := { batteryLevel := none, ultrasonicLeft := some 0
                 ultrasonicRight := some 500, accelerometer := none }
    gps := { lat := some 1, lon := some 1 } }

/-- A concrete HTTP telemetry record with battery level 15 at time `ts`. -/
def httpBatteryMsg (ts : ℤ) : TelemetryRecord :=
  { deviceId := "stick-001", timestamp := ts
    sensors := { batteryLevel := some 15, ultrasonicLeft := none
                 ultrasonicRight := none, accelerometer := none }
    gps := { lat := some 1, lon := some 1 } }

/-- Filtering distributes over the two halves of an appended event log. -/
theorem lbEvents_append (d : String) (l1 l2 : List EventRec) :
    lbEvents d (l1 ++ l2) = lbEvents d l1 ++ lbEvents d l2 :=
  List.filter_append l1 l2

/-- When the log holds no low-battery event of the device, the cooldown
query of `handleLowBatteryAlert` finds nothing. -/
theorem hasRecent_false_of_empty (d : String) (now : ℤ) (log : List EventRec)
    (h : lbEvents d log = []) : hasRecentLowBattery d now log = false := by
  rw [Bool.eq_false_iff]
  intro hc
  obtain ⟨e, he, hp⟩ := List.any_eq_true.mp hc
  simp only [Bool.and_eq_true, decide_eq_true_eq] at hp
  have hmem : e ∈ lbEvents d log := by
    rw [lbEvents, List.mem_filter]
    exact ⟨he, by simp [hp.1.1, hp.1.2]⟩
  rw [h] at hmem
  exact List.not_mem_nil e hmem

/-- A message of another device never changes the low-battery events of `d`. -/
theorem lbEvents_step_ne (d : String) (m : MqttTelemetryMsg)
    (log : List EventRec) (hd : m.deviceId ≠ d) :
    lbEvents d (mqttBatteryCheck m log) = lbEvents d log := by
  unfold mqttBatteryCheck handleLowBatteryAlert
  split
  · split
    · rfl
    · rw [lbEvents_append]
      simp [lbEvents, List.filter, hd]
  · rfl

/-- Once the log holds a low-battery event of `d` stamped at or after `T`,
any further message processed at or before `T + hourMs` is suppressed by
the cooldown (or belongs to another device), so the low-battery events of
`d` do not change. -/
theorem lbEvents_step_preserve (d : String) (T : ℤ) (m : MqttTelemetryMsg)
    (log : List EventRec) (hnow : m.now ≤ T + hourMs)
    (hw : ∃ e ∈ lbEvents d log, T ≤ e.timestamp) :
    lbEvents d (mqttBatteryCheck m log) = lbEvents d log := by
  by_cases hd : m.deviceId = d
  · unfold mqttBatteryCheck
    split
    · unfold handleLowBatteryAlert
      have hrec : hasRecentLowBattery m.deviceId m.now log = true := by
        obtain ⟨e, he, hT⟩ := hw
        rw [hasRecentLowBattery, List.any_eq_true]
        rw [lbEvents, List.mem_filter] at he
        obtain ⟨hin, hpred⟩ := he
        simp only [Bool.and_eq_true, decide_eq_true_eq] at hpred
        refine ⟨e, hin, ?_⟩
        simp only [Bool.and_eq_true, decide_eq_true_eq]
        exact ⟨⟨hpred.1, hd ▸ hpred.2⟩, by omega⟩
      rw [if_pos hrec]
    · rfl
  · exact lbEvents_step_ne d m log hd

/-- The suppression of `lbEvents_step_preserve` extends over a whole
message stream. -/
theorem lbEvents_process_preserve (d : String) (T : ℤ)
    (ms : List MqttTelemetryMsg) :
    ∀ log : List EventRec,
      (∀ m ∈ ms, m.now ≤ T + hourMs) →
      (∃ e ∈ lbEvents d log, T ≤ e.timestamp) →
      lbEvents d (processMqttTelemetry ms log) = lbEvents d log := by
  induction ms with
  | nil => intro log _ _; rfl
  | cons m ms ih =>
    intro log hall hw
    rw [processMqttTelemetry]
    have hstep := lbEvents_step_preserve d T m log (hall m (by simp)) hw
    rw [ih _ (fun x hx => hall x (by simp [hx])) (by rw [hstep]; exact hw), hstep]

/-- A qualifying message met with an empty low-battery history creates
exactly one low-battery event, stamped at the processing instant. -/
theorem lbEvents_step_create (d : String) (m : MqttTelemetryMsg)
    (log : List EventRec) (hd : m.deviceId = d)
    (hq : ltNum m.batteryLevel 20 = true) (hempty : lbEvents d log = []) :
    lbEvents d (mqttBatteryCheck m log)
      = [{ type := .LOW_BATTERY, deviceId := m.deviceId, timestamp := m.now
           severity := if m.batteryLevel.getD 0 < 10 then .high
                       else .medium }] := by
  unfold mqttBatteryCheck
  rw [if_pos hq]
  unfold handleLowBatteryAlert
  have hf := hasRecent_false_of_empty d m.now log hempty
  rw [hd, hf]
  simp only [Bool.false_eq_true, if_false]
  rw [lbEvents_append, hempty]
  simp [lbEvents, List.filter, hd]

/-- Auxiliary induction for claim C1: starting from a log with no
low-battery event of `d`, a window-bounded stream holding at least one
qualifying message for `d` ends with exactly one low-battery event of `d`. -/
theorem mqtt_exactly_one_aux (d : String) (T : ℤ)
    (ms : List MqttTelemetryMsg) :
    ∀ log : List EventRec,
      (∀ m ∈ ms, T ≤ m.now ∧ m.now ≤ T + hourMs) →
      lbEvents d log = [] →
      (∃ m ∈ ms, m.deviceId = d ∧ ltNum m.batteryLevel 20 = true) →
      (lbEvents d (processMqttTelemetry ms log)).length = 1 := by
  induction ms with
  | nil => intro log _ _ hq; exact absurd hq (by simp)
  | cons m ms ih =>
    intro log hall hempty hq
    rw [processMqttTelemetry]
    by_cases hqm : m.deviceId = d ∧ ltNum m.batteryLevel 20 = true
    · have hcreate := lbEvents_step_create d m log hqm.1 hqm.2 hempty
      have hpres := lbEvents_process_preserve d T ms (mqttBatteryCheck m log)
        (fun x hx => (hall x (by simp [hx])).2)
        (by rw [hcreate]
            exact ⟨_, List.mem_singleton_self _, (hall m (by simp)).1⟩)
      rw [hpres, hcreate]
      rfl
    · have hstep : lbEvents d (mqttBatteryCheck m log) = [] := by
        by_cases hd : m.deviceId = d
        · have hnq : ¬ ltNum m.batteryLevel 20 = true := fun hl => hqm ⟨hd, hl⟩
          unfold mqttBatteryCheck
          rw [if_neg hnq]
          exact hempty
        · rw [lbEvents_step_ne d m log hd]
          exact hempty
      refine ih _ (fun x hx => hall x (by simp [hx])) hstep ?_
      obtain ⟨m0, hm0, hq0⟩ := hq
      rcases List.mem_cons.mp hm0 with rfl | hm0'
      · exact absurd hq0 hqm
      · exact ⟨m0, hm0', hq0⟩

/-- Pointwise-fixed parameter maps survive sanitization unchanged. -/
theorem sanitizeParameters_fixed (ps : List (String × JsonValue))
    (h : ∀ kv ∈ ps, sanitizeValue kv.2 = kv.2) : sanitizeParameters ps = ps := by
  induction ps with
  | nil => rfl
  | cons kv tl ih =>
    obtain ⟨k, v⟩ := kv
    have h1 := h (k, v) (List.mem_cons_self _ _)
    have h2 : ∀ kv ∈ tl, sanitizeValue kv.2 = kv.2 :=
      fun x hx => h x (List.mem_cons_of_mem _ hx)
    simp only [sanitizeParameters, List.map_cons] at ih ⊢
    rw [ih h2]
    simp only at h1
    rw [h1]

/-- Counting the successful rows of the bulk-dispatch results equals
counting the devices whose id is valid and whose publish succeeded. -/
theorem bulk_success_length (deviceIds : List String)
    (publishOk : String → Bool) :
    ((deviceIds.map fun d =>
        ({ deviceId := d, success := isValidDeviceId d && publishOk d } :
          BulkEntryRec)).filter fun r => r.success).length
      = (deviceIds.filter fun d => isValidDeviceId d && publishOk d).length := by
  induction deviceIds with
  | nil => rfl
  | cons d tl ih =>
    cases h : isValidDeviceId d && publishOk d <;>
      simp [List.filter, h, ih]

/-- Claim C1, counterexample: on the HTTP ingestion path
(`TelemetryController.checkForAlerts`), two accepted telemetry messages of
the same device with battery level 15, only one second apart (far inside
any one-hour cooldown window), create two `LOW_BATTERY` events — the claim
says exactly one per device and window on every path. -/
theorem httpLowBattery_no_cooldown_cex :
    countLowBattery "stick-001"
        (httpTelemetryStep (httpBatteryMsg 1000) false
          (httpTelemetryStep (httpBatteryMsg 0) false [])) = 2 ∧
    (1000 : ℤ) - 0 ≤ hourMs := by decide

/-- Claim C1 (amended): on the MQTT ingestion path
(`handleTelemetryMessage` calling `handleLowBatteryAlert`), for every
device, among all telemetry messages whose battery level is below 20 that
are processed within one cooldown window `[T, T + 1 hour]`, exactly one
`LOW_BATTERY` event is created for that device, regardless of how many
qualifying messages arrive inside the window.  The HTTP path
(`checkForAlerts`) performs no cooldown query, so the original
path-independent claim fails there. -/
theorem mqtt_lowBattery_exactly_one_per_window (ms : List MqttTelemetryMsg)
    (d : String) (T : ℤ)
    (hwin : ∀ m ∈ ms, T ≤ m.now ∧ m.now ≤ T + hourMs)
    (hq : ∃ m ∈ ms, m.deviceId = d ∧ ltNum m.batteryLevel 20 = true) :
    countLowBattery d (processMqttTelemetry ms []) = 1 :=
  mqtt_exactly_one_aux d T ms [] hwin rfl hq

/-- Witness for claim C1: three qualifying messages of one device inside
one hour produce exactly one `LOW_BATTERY` event. -/
theorem mqtt_lowBattery_exactly_one_per_window_witness :
    countLowBattery "stick-001"
        (processMqttTelemetry
          [{ deviceId := "stick-001", batteryLevel := some 15, now := 0 },
           { deviceId := "stick-001", batteryLevel := some 12, now := 1800000 },
           { deviceId := "stick-001", batteryLevel := some 9, now := 3600000 }]
          []) = 1 :=
  mqtt_lowBattery_exactly_one_per_window _ "stick-001" 0 (by decide) (by decide)

/-- Claim C2, counterexample: `Event.resolve` never checks the current
status, so a second `resolveSOS` call on an already-resolved SOS incident
replies 200 (not a 409 `ConflictError`) and replaces the resolution
record of the first call. -/
theorem resolve_not_terminal_cex :
    (SOSController.resolveSOS (Event.resolve sos0 "u1" "first" ["secure-area"] 100)
        true "u2" "second" ["call-family"] 200).statusCode = 200 ∧
    (SOSController.resolveSOS (Event.resolve sos0 "u1" "first" ["secure-area"] 100)
        true "u2" "second" ["call-family"] 200).event.resolution
      = some { resolvedAt := 200, resolvedBy := "u2", resolutionNote := "second"
               resolutionActions := [{ action := "call-family", timestamp := 200
                                       performedBy := "u2" }] } ∧
    (SOSController.resolveSOS (Event.resolve sos0 "u1" "first" ["secure-area"] 100)
        true "u2" "second" ["call-family"] 200).event.resolution
      ≠ (Event.resolve sos0 "u1" "first" ["secure-area"] 100).resolution := by
  decide

/-- Claim C2 (amended): resolving is not terminal.  A second
`Event.resolve` call on an incident in any status (in particular an
already-resolved one) succeeds and fully overwrites the resolution record
with the second call's resolver, note, action list and time; the status
stays `resolved`. -/
theorem resolve_second_call_overwrites (e : EventDoc) (u1 u2 n1 n2 : String)
    (a1 a2 : List String) (t1 t2 : ℤ) :
    Event.resolve (Event.resolve e u1 n1 a1 t1) u2 n2 a2 t2
        = Event.resolve e u2 n2 a2 t2 ∧
    (Event.resolve e u2 n2 a2 t2).status = Status.resolved ∧
    (Event.resolve e u2 n2 a2 t2).resolution
        = some { resolvedAt := t2, resolvedBy := u2, resolutionNote := n2
                 resolutionActions := a2.map fun a =>
                   { action := a, timestamp := t2, performedBy := u2 } } :=
  ⟨rfl, rfl, rfl⟩

/-- Claim C3, counterexample: `Event.acknowledge` appends an entry only
when the acknowledgments list is still empty (`!this.isAcknowledged`), so
acknowledging twice leaves one entry, not two — the second call is a
complete no-op. -/
theorem acknowledge_twice_one_entry_cex :
    (Event.acknowledge (Event.acknowledge sos0 "u1" "on my way" 10)
        "u2" "also coming" 20).acknowledgments.length = 1 ∧
    Event.acknowledge (Event.acknowledge sos0 "u1" "on my way" 10)
        "u2" "also coming" 20
      = Event.acknowledge sos0 "u1" "on my way" 10 ∧
    (Event.acknowledge sos0 "u1" "on my way" 10).status = Status.acknowledged := by
  decide

/-- Claim C3 (amended): on a fresh active incident the first
`Event.acknowledge` call appends its single entry and moves the status to
`acknowledged`; a second call appends nothing and changes nothing (the
method only acts while the acknowledgments list is empty), so the status
stays `acknowledged` but the list stays at one entry. -/
theorem acknowledge_second_call_noop (d : String) (loc : Option Gps) (t0 : ℤ)
    (u1 n1 : String) (t1 : ℤ) (u2 n2 : String) (t2 : ℤ) :
    (Event.acknowledge (Event.createSOSEvent d loc t0) u1 n1 t1).acknowledgments
        = [{ acknowledgedBy := u1, acknowledgedAt := t1, note := n1 }] ∧
    (Event.acknowledge (Event.createSOSEvent d loc t0) u1 n1 t1).status
        = Status.acknowledged ∧
    Event.acknowledge (Event.acknowledge (Event.createSOSEvent d loc t0) u1 n1 t1)
        u2 n2 t2
      = Event.acknowledge (Event.createSOSEvent d loc t0) u1 n1 t1 := by
  refine ⟨?_, ?_, ?_⟩ <;>
    simp [Event.acknowledge, Event.createSOSEvent, isAcknowledged]

/-- Claim C4, counterexample: a well-formed `POST /sos` for a device with
zero registered notification tokens is answered with HTTP 200 (not 201)
by the early `users.length === 0` return, whose body has no
`notificationsSent` field; the SOS incident is still created with status
`active`.  The GPS pair is the claim's `(40.7128, -74.0060)` written as
reduced fractions. -/
theorem receiveSOS_zero_tokens_cex :
    (SOSController.receiveSOS "stick-001"
        (some { lat := some (Rat.mk' 50891 1250), lon := some (Rat.mk' (-37003) 500) })
        [] true 0).statusCode = 200 ∧
    (SOSController.receiveSOS "stick-001"
        (some { lat := some (Rat.mk' 50891 1250), lon := some (Rat.mk' (-37003) 500) })
        [] true 0).statusCode ≠ 201 ∧
    (SOSController.receiveSOS "stick-001"
        (some { lat := some (Rat.mk' 50891 1250), lon := some (Rat.mk' (-37003) 500) })
        [] true 0).notificationsSent = none ∧
    (SOSController.receiveSOS "stick-001"
        (some { lat := some (Rat.mk' 50891 1250), lon := some (Rat.mk' (-37003) 500) })
        [] true 0).event.status = Status.active := by
  decide

/-- Claim C4 (amended): when the device has no user with a registered FCM
token (`findUsersWithFCMByDevice` returns nothing), `receiveSOS` replies
200 with `success: true`, the body carries no `notificationsSent` field,
and the SOS incident is still created with status `active` — the absence
of recipients is not an error and does not prevent incident creation. -/
theorem receiveSOS_zero_tokens_response (deviceId : String) (gps : Option Gps)
    (users : List UserRec) (fcmOk : Bool) (now : ℤ)
    (h : findUsersWithFCMByDevice users = []) :
    (SOSController.receiveSOS deviceId gps users fcmOk now).statusCode = 200 ∧
    (SOSController.receiveSOS deviceId gps users fcmOk now).success = true ∧
    (SOSController.receiveSOS deviceId gps users fcmOk now).notificationsSent = none ∧
    (SOSController.receiveSOS deviceId gps users fcmOk now).event.status
        = Status.active := by
  refine ⟨?_, ?_, ?_, ?_⟩ <;>
    simp [SOSController.receiveSOS, h, Event.createSOSEvent]

/-- Witness for claim C4: one associated user without any FCM token. -/
theorem receiveSOS_zero_tokens_response_witness :
    (SOSController.receiveSOS "stick-001"
        (some { lat := some 40, lon := some (-74) })
        [{ hasDevice := true, isActive := true, fcmToken := none }]
        true 0).statusCode = 200 ∧
    (SOSController.receiveSOS "stick-001"
        (some { lat := some 40, lon := some (-74) })
        [{ hasDevice := true, isActive := true, fcmToken := none }]
        true 0).success = true ∧
    (SOSController.receiveSOS "stick-001"
        (some { lat := some 40, lon := some (-74) })
        [{ hasDevice := true, isActive := true, fcmToken := none }]
        true 0).notificationsSent = none ∧
    (SOSController.receiveSOS "stick-001"
        (some { lat := some 40, lon := some (-74) })
        [{ hasDevice := true, isActive := true, fcmToken := none }]
        true 0).event.status = Status.active :=
  receiveSOS_zero_tokens_response "stick-001"
    (some { lat := some 40, lon := some (-74) })
    [{ hasDevice := true, isActive := true, fcmToken := none }] true 0 (by decide)

/-- Claim C5 (code bug): the HTTP-path guard
`telemetry.sensors?.battery?.level && level < 20` treats battery level 0
as absent (JavaScript truthiness), so a record with level 0 — the most
depleted battery possible, and below the threshold 20 — produces no
`LOW_BATTERY` alert, although the same repository's MQTT guard
(`level < 20`, modelled by `ltNum`) does fire at 0 and
`handleLowBatteryAlert` would record a high-severity event.  The
remaining conjuncts confirm the rest of the claim on the HTTP path:
level 19.99 (`Rat.mk' 1999 100`) yields a `medium` alert, level 8 a
`high` alert, and level 20 none. -/
theorem checkForAlerts_battery_zero_divergence :
    ((checkForAlerts tBatteryZero false).filter fun a =>
        decide (a.type = EventType.LOW_BATTERY)) = [] ∧
    (0 : ℚ) < 20 ∧
    ltNum (some 0) 20 = true ∧
    lbEvents "stick-001" (handleLowBatteryAlert "stick-001" 0 0 [])
      = [{ type := EventType.LOW_BATTERY, deviceId := "stick-001"
           timestamp := 0, severity := Severity.high }] ∧
    ((checkForAlerts (withBattery (some (Rat.mk' 1999 100))) false).filter fun a =>
        decide (a.type = EventType.LOW_BATTERY))
      = [{ type := EventType.LOW_BATTERY, severity := Severity.medium
           alertValue := some (Rat.mk' 1999 100) }] ∧
    ((checkForAlerts (withBattery (some 8)) false).filter fun a =>
        decide (a.type = EventType.LOW_BATTERY))
      = [{ type := EventType.LOW_BATTERY, severity := Severity.high
           alertValue := some 8 }] ∧
    ((checkForAlerts (withBattery (some 20)) false).filter fun a =>
        decide (a.type = EventType.LOW_BATTERY)) = [] := by
  decide

/-- Claim C6, counterexample: on the MQTT path
(`checkCriticalSensorReadings`) a left reading of 10 cm — below the
claimed high-severity bound 15 — yields an `OBSTACLE_DETECTED` alert of
severity `medium`, not `high`; and on the HTTP path (`checkForAlerts`) a
left reading of exactly 0 cm is replaced by 1000 by the `|| 1000`
fallback, so no obstacle alert is raised at all although
`min(0, 500) = 0 < 30`. -/
theorem obstacle_rule_cex :
    checkCriticalSensorReadings tObstacle10
      = [{ type := EventType.OBSTACLE_DETECTED, severity := Severity.medium
           alertValue := some 10 }] ∧
    (10 : ℚ) < 15 ∧
    ((checkForAlerts tObstacleZero false).filter fun a =>
        decide (a.type = EventType.OBSTACLE_DETECTED)) = [] ∧
    (0 : ℚ) < 30 := by
  decide

/-- Claim C6 (amended): the three obstacle code paths disagree and none
matches the claim verbatim.  On the HTTP path an `OBSTACLE_DETECTED`
alert is created exactly when `min(left || 1000, right || 1000) < 30`
(zero or absent readings default to 1000), with severity `high` when that
minimum is below 15 and `medium` otherwise; on the MQTT path the alert is
created exactly when `left < 30` or `right < 30` (absent readings compare
false) and the severity is always `medium`; `handleObstacleAlert` uses
the high-severity bound 20, not 15. -/
theorem obstacle_rule_per_path (t : TelemetryRecord) (prev : Bool)
    (d : String) (distance : ℚ) (now : ℤ) :
    ((checkForAlerts t prev).filter fun a =>
        decide (a.type = EventType.OBSTACLE_DETECTED)) =
      (if min (orDefault t.sensors.ultrasonicLeft 1000)
              (orDefault t.sensors.ultrasonicRight 1000) < 30 then
        [{ type := EventType.OBSTACLE_DETECTED
           severity := if min (orDefault t.sensors.ultrasonicLeft 1000)
                            (orDefault t.sensors.ultrasonicRight 1000) < 15
                       then Severity.high else Severity.medium
           alertValue := some (min (orDefault t.sensors.ultrasonicLeft 1000)
                                   (orDefault t.sensors.ultrasonicRight 1000)) }]
      else []) ∧
    ((checkCriticalSensorReadings t).filter fun a =>
        decide (a.type = EventType.OBSTACLE_DETECTED)) =
      (if ltNum t.sensors.ultrasonicLeft 30 || ltNum t.sensors.ultrasonicRight 30 then
        [{ type := EventType.OBSTACLE_DETECTED
           severity := Severity.medium
           alertValue := some (min (orDefault t.sensors.ultrasonicLeft 1000)
                                   (orDefault t.sensors.ultrasonicRight 1000)) }]
      else []) ∧
    handleObstacleAlert d distance now [] =
      [{ type := EventType.OBSTACLE_DETECTED, deviceId := d, timestamp := now
         severity := if distance < 20 then Severity.high else Severity.medium }] := by
  refine ⟨?_, ?_, ?_⟩
  · rcases hacc : t.sensors.accelerometer with _ | a <;>
      simp only [checkForAlerts, hacc, List.filter_append] <;>
      split_ifs <;>
      simp_all [List.filter]
  · rcases hacc : t.sensors.accelerometer with _ | a <;>
      simp only [checkCriticalSensorReadings, hacc, List.filter_append] <;>
      split_ifs <;>
      simp_all [List.filter]
  · simp [handleObstacleAlert]

/-- Claim C7, counterexample: `Event.escalate` writes
`Math.min(level, 5)`, which clamps only from above.  A call with level 0
stores escalation level 0, outside `[1, 5]` — not clamped up to 1 — and
the subsequent mongoose `save()` rejects the document with a
`ValidationError` instead of recording a clamped level. -/
theorem escalate_below_one_cex :
    (Event.escalate sos0 "admin-1" "no responder available" 0 500).escalation
      = some { escalated := true, escalatedAt := 500, escalatedTo := "admin-1"
               escalationReason := "no responder available"
               escalationLevel := 0 } ∧
    ¬ (1 ≤ (0 : ℤ)) ∧
    escalateAndSave sos0 "admin-1" "no responder available" 0 500
      = SaveOutcome.validationError := by
  decide

/-- Claim C7 (amended): each `escalate` call, independent of the
incident's status, fully overwrites the prior escalation record with
`escalated = true` and level `min(level, 5)`: levels above 5 are clamped
down to 5, levels at least 1 are stored as given and pass the schema
check on save, but levels below 1 are not clamped up — they are written
as-is and the save fails with a `ValidationError`. -/
theorem escalate_clamps_only_above (e : EventDoc) (t1 t2 r1 r2 : String)
    (l1 l2 : ℤ) (n1 n2 : ℤ) :
    (Event.escalate e t1 r1 l1 n1).escalation
        = some { escalated := true, escalatedAt := n1, escalatedTo := t1
                 escalationReason := r1, escalationLevel := min l1 5 } ∧
    (escalateAndSave e t1 r1 l1 n1 =
        if 1 ≤ l1 then SaveOutcome.ok (Event.escalate e t1 r1 l1 n1)
        else SaveOutcome.validationError) ∧
    Event.escalate (Event.escalate e t1 r1 l1 n1) t2 r2 l2 n2
        = Event.escalate e t2 r2 l2 n2 := by
  refine ⟨rfl, ?_, rfl⟩
  simp only [escalateAndSave, escalationLevelValid, Event.escalate]
  by_cases h : 1 ≤ l1
  · rw [if_pos h, if_pos]
    simp only [Bool.and_eq_true, decide_eq_true_eq]
    omega
  · rw [if_neg h, if_neg]
    simp only [Bool.and_eq_true, decide_eq_true_eq, not_and]
    omega

/-- Characterization of the bulk-dispatch happy path (admin, non-empty
list, valid command, transport connected): the response carries one row
per device, the per-device outcome, the success count, and the
at-least-one-success status. -/
theorem sendBulkCommands_main (deviceIds : List String) (command : String)
    (publishOk : String → Bool) (hne : deviceIds ≠ [])
    (hcmd : validCommands.contains command = true) :
    sendBulkCommands true deviceIds command true publishOk =
      { statusCode :=
          if 0 < (deviceIds.filter fun d => isValidDeviceId d && publishOk d).length
          then 200 else 500
        success :=
          decide (0 < (deviceIds.filter fun d => isValidDeviceId d && publishOk d).length)
        results := deviceIds.map fun d =>
          { deviceId := d, success := isValidDeviceId d && publishOk d }
        successCount := (deviceIds.filter fun d => isValidDeviceId d && publishOk d).length
        totalDevices := deviceIds.length } := by
  have hie : deviceIds.isEmpty = false := by
    cases deviceIds with
    | nil => exact absurd rfl hne
    | cons a l => rfl
  rw [sendBulkCommands]
  rw [if_neg (by simp), if_neg (by simp [hie]),
    if_neg (fun hcon => by rw [hcmd] at hcon; simp at hcon), if_neg (by simp)]
  have hfun : ∀ d : String,
      (if !isValidDeviceId d then ({ deviceId := d, success := false } : BulkEntryRec)
       else { deviceId := d, success := publishOk d })
      = { deviceId := d, success := isValidDeviceId d && publishOk d } := by
    intro d
    cases hv : isValidDeviceId d <;> simp [hv]
  simp only [hfun]
  rw [bulk_success_length]

/-- Claim C8 (confirmed): for an admin bulk dispatch of a valid command
over a non-empty device list with the transport connected, every device is
handled independently — the response has one row per device whose success
is exactly "valid id and publish succeeded" (an invalid id or failed
publish is a per-device failure that does not abort the batch), the
success count is the number of such devices, and the overall `success`
flag is true exactly when at least one device succeeded. -/
theorem sendBulkCommands_per_device (deviceIds : List String)
    (command : String) (publishOk : String → Bool) (hne : deviceIds ≠ [])
    (hcmd : validCommands.contains command = true) :
    (sendBulkCommands true deviceIds command true publishOk).results
        = deviceIds.map (fun d =>
            { deviceId := d, success := isValidDeviceId d && publishOk d }) ∧
    ((sendBulkCommands true deviceIds command true publishOk).success = true ↔
        ∃ d ∈ deviceIds, (isValidDeviceId d && publishOk d) = true) ∧
    (sendBulkCommands true deviceIds command true publishOk).successCount
        = (deviceIds.filter fun d => isValidDeviceId d && publishOk d).length ∧
    (sendBulkCommands true deviceIds command true publishOk).totalDevices
        = deviceIds.length := by
  rw [sendBulkCommands_main deviceIds command publishOk hne hcmd]
  refine ⟨rfl, ?_, rfl, rfl⟩
  show decide _ = true ↔ _
  rw [decide_eq_true_eq, List.length_pos]
  simp [List.filter_eq_nil_iff]

/-- Witness for claim C8: the scenario of the claim — `vibrate` over
`["a", "bad id", "b"]` where `"bad id"` fails the device-id format check
and publishing succeeds — reports 2 successes, 1 per-device failure,
overall success, HTTP 200. -/
theorem sendBulkCommands_per_device_witness :
    (sendBulkCommands true ["a", "bad id", "b"] "vibrate" true
        (fun _ => true)).success = true ∧
    (sendBulkCommands true ["a", "bad id", "b"] "vibrate" true
        (fun _ => true)).successCount = 2 ∧
    ((sendBulkCommands true ["a", "bad id", "b"] "vibrate" true
        (fun _ => true)).results.filter fun r => !r.success).length = 1 ∧
    (sendBulkCommands true ["a", "bad id", "b"] "vibrate" true
        (fun _ => true)).statusCode = 200 :=
  ⟨(sendBulkCommands_per_device ["a", "bad id", "b"] "vibrate" (fun _ => true)
      (by decide) (by decide)).2.1.mpr ⟨"a", by decide, by decide⟩,
   by decide, by decide, by decide⟩

/-- Claim C9, counterexample: dispatching with a parameter value of
`" <hello> "` records `"hello"` — `sanitizeText` trims whitespace and
strips angle brackets — so the recorded dispatch entry's parameters are
not equal to the supplied map `P`. -/
theorem sendCommand_roundtrip_cex :
    (sendCommandDispatch "stick-001" "vibrate"
        [("note", JsonValue.str " <hello> ")] "msg-1").parameters
      ≠ [("note", JsonValue.str " <hello> ")] := by
  decide

/-- Claim C9 (amended): the recorded `COMMAND_SENT` dispatch entry (and
the echoed HTTP response) stores the sanitized parameters map — every
string value goes through `sanitizeText` (trim plus removal of angle
brackets), other values pass through unchanged — and this equals the
supplied map `P` exactly when every string value of `P` is already
sanitization-fixed. -/
theorem sendCommand_parameters_roundtrip (d c mid : String)
    (ps : List (String × JsonValue)) :
    (sendCommandDispatch d c ps mid).parameters = sanitizeParameters ps ∧
    ((∀ kv ∈ ps, sanitizeValue kv.2 = kv.2) →
      (sendCommandDispatch d c ps mid).parameters = ps) :=
  ⟨rfl, fun h => sanitizeParameters_fixed ps h⟩

/-- Witness for claim C9: a clean parameters map round-trips unchanged. -/
theorem sendCommand_parameters_roundtrip_witness :
    (sendCommandDispatch "stick-001" "vibrate"
        [("intensity", JsonValue.str "high"), ("duration", JsonValue.num 3)]
        "msg-2").parameters
      = [("intensity", JsonValue.str "high"), ("duration", JsonValue.num 3)] :=
  (sendCommand_parameters_roundtrip "stick-001" "vibrate" "msg-2"
    [("intensity", JsonValue.str "high"), ("duration", JsonValue.num 3)]).2
    (by decide)

/-- Claim C10 (confirmed): `Event.createSOSEvent` records a geolocation
exactly when a GPS object was supplied and both coordinates are present
and non-zero (the guard `location && location.lat && location.lon` is a
truthiness test); in particular an SOS whose latitude is exactly 0 (the
equator) or whose longitude is exactly 0 (the prime meridian), or whose
coordinate is absent, silently loses its location. -/
theorem createSOSEvent_location_truthiness (d : String) (loc : Option Gps)
    (now : ℤ) :
    ((Event.createSOSEvent d loc now).location ≠ none ↔
      ∃ g la lo, loc = some g ∧ g.lat = some la ∧ g.lon = some lo ∧
        la ≠ 0 ∧ lo ≠ 0) ∧
    (Event.createSOSEvent d (some { lat := some 0, lon := some 77 }) now).location
      = none ∧
    (Event.createSOSEvent d (some { lat := some 51, lon := some 0 }) now).location
      = none := by
  refine ⟨?_, by simp [Event.createSOSEvent, truthyNum], by simp [Event.createSOSEvent, truthyNum]⟩
  cases loc with
  | none => simp [Event.createSOSEvent]
  | some g =>
    cases hla : g.lat with
    | none => simp [Event.createSOSEvent, truthyNum, hla]
    | some la =>
      cases hlo : g.lon with
      | none => simp [Event.createSOSEvent, truthyNum, hla, hlo]
      | some lo =>
        by_cases hz : la = 0
        · simp [Event.createSOSEvent, truthyNum, hla, hlo, hz]
        · by_cases hz2 : lo = 0
          · simp [Event.createSOSEvent, truthyNum, hla, hlo, hz, hz2]
          · simp only [Event.createSOSEvent, truthyNum, hla, hlo]
            simp [hz, hz2, hla, hlo]

end SmartStick
